import Mathlib

/-!
Shallow embedding of the Flask teams/things web application
(`app/__init__.py`): data model, session and flash state, and one Lean
function per route handler.  External collaborators (password hashing,
the `login_required` gate, the 404 helper) are modelled from the spec
where their code is not part of the repository snapshot, and each such
definition says so in its doc comment.
-/

/-- A value stored in the session dictionary: the app stores integer ids
and strings. -/
inductive SessVal where
  | nat (n : Nat)
  | str (s : String)
deriving DecidableEq, Repr

/-- The Flask session: a string-keyed dictionary, modelled as an
association list. -/
abbrev Session := List (String × SessVal)

/-- Dictionary lookup (`session[k]` / `session.get(k)`). -/
def sessGet (s : Session) (k : String) : Option SessVal :=
  (s.find? (fun p => p.1 == k)).map (fun p => p.2)

/-- Dictionary assignment `session[k] = v`. -/
def sessSet (s : Session) (k : String) (v : SessVal) : Session :=
  (k, v) :: s.filter (fun p => !(p.1 == k))

/-- `session.pop(k, None)`: remove the key if present. -/
def sessPop (s : Session) (k : String) : Session :=
  s.filter (fun p => !(p.1 == k))

/-- An HTML form, as submitted: a string-keyed dictionary of fields.
`request.form.get(k)` returns `none` when the field is absent. -/
abbrev Form := List (String × String)

/-- `request.form.get(k)`. -/
def formGet (f : Form) (k : String) : Option String :=
  (f.find? (fun p => p.1 == k)).map (fun p => p.2)

/-- A row of the `users` table, columns in `SELECT *` order:
`id`, `username`, `password` (the stored hash). -/
structure User where
  id : Nat
  username : String
  password : String
deriving DecidableEq, Repr

/-- A row of the `things` table: `id`, `name`, `price`, `user_id`.
`price` is stored as the posted form value (`none` when the field was
absent and `NULL` was bound). -/
structure Thing where
  id : Nat
  name : String
  price : Option String
  user_id : Nat
deriving DecidableEq, Repr

/-- A row of the `teams` table: `code` (primary key), `name`,
`image_data` (nullable blob, bytes as `List Nat`), `image_mime`
(nullable string). -/
structure Team where
  code : String
  name : String
  image_data : Option (List Nat)
  image_mime : Option String
deriving DecidableEq, Repr

/-- A row of the `players` table: `id` and the `team` foreign key
(a team code). -/
structure Player where
  id : Nat
  team : String
deriving DecidableEq, Repr

/-- The relational store.  `next_user_id` / `next_thing_id` model the
autoincrement rowid counters (`result.last_insert_rowid`). -/
structure DB where
  users : List User
  things : List Thing
  teams : List Team
  players : List Player
  next_user_id : Nat
  next_thing_id : Nat
deriving DecidableEq, Repr

/-- The response a handler produces: a rendered template (with the data
passed to the renderer), a redirect, raw image bytes, or a 404. -/
inductive Resp where
  | renderTeams (teams : List (String × String × Nat))
  | renderThings (things : List (Nat × String × String))
  | renderThing (id : Nat) (name : String) (price : Option String)
      (user_id : Nat) (owner : String)
  | renderPage (page : String)
  | imageResponse (data : List Nat) (mime : String)
  | notFound
  | redirect (loc : String)
deriving DecidableEq, Repr

/-- Request-scoped state threaded through a handler: the store, the
session dictionary, and the flash queue of (message, category) pairs. -/
structure Ctx where
  db : DB
  sess : Session
  flashes : List (String × String)
deriving DecidableEq, Repr

/-- `flash(message, category)`: append to the flash queue. -/
def addFlash (ctx : Ctx) (message category : String) : Ctx :=
  { ctx with flashes := ctx.flashes ++ [(message, category)] }

/-- Escape of one character, as `html.escape` (with quoting) maps it. -/
def escapeChar (c : Char) : String :=
  if c = Char.ofNat 38 then "&amp;"
  else if c = Char.ofNat 60 then "&lt;"
  else if c = Char.ofNat 62 then "&gt;"
  else if c = Char.ofNat 34 then "&quot;"
  else if c = Char.ofNat 39 then "&#x27;"
  else String.mk [c]

/-- Python `html.escape(s)` (quote=True): replace the five
HTML-significant characters by entities. -/
def htmlEscape (s : String) : String :=
  String.join (s.toList.map escapeChar)

/-- Modelled from the spec: `generate_password_hash` is werkzeug's, an
external collaborator; the spec treats hashing as "an opaque one-way
function with a verify operation", so it is modelled as an injective
tagging function. -/
def generate_password_hash (password : String) : String :=
  "pbkdf2$" ++ password

/-- Modelled from the spec: `check_password_hash(hash, password)`
verifies a plaintext against a stored hash; with the hash model above,
verification succeeds exactly when the hash was generated from the
plaintext. -/
def check_password_hash (hash password : String) : Bool :=
  hash == generate_password_hash password

/-- Modelled from the spec: `not_found_error` lives in
`app/helpers/errors.py`, which is not part of the snapshot; the spec
says a missing row produces a structured "not found" (HTTP 404)
response rather than an exception. -/
def not_found_error : Resp := Resp.notFound

/-- A single quote character, used in flash message text. -/
def sQuote : String := String.mk [Char.ofNat 39]

/-- Number of players whose `team` column equals the given team code:
the `COUNT(players.id)` of the home-page aggregate for that team. -/
def playerCount (db : DB) (code : String) : Nat :=
  (db.players.filter (fun p => p.team == code)).length

/-- The row the home-page query produces for one team:
`(code, name, player_count)`. -/
def teamRow (db : DB) (t : Team) : String × String × Nat :=
  (t.code, t.name, playerCount db t.code)

/-- Descending player-count order used by `ORDER BY player_count DESC`. -/
def countDescRel (a b : String × String × Nat) : Prop :=
  b.2.2 ≤ a.2.2

instance : DecidableRel countDescRel :=
  fun a b => Nat.decLe b.2.2 a.2.2

instance : IsTotal (String × String × Nat) countDescRel :=
  ⟨fun a b => Nat.le_total b.2.2 a.2.2⟩

instance : IsTrans (String × String × Nat) countDescRel :=
  ⟨fun _ _ _ h1 h2 => Nat.le_trans h2 h1⟩

/-- The list the home page passes to the renderer: one row per team,
ordered by player count descending. -/
def indexRows (db : DB) : List (String × String × Nat) :=
  List.insertionSort countDescRel (db.teams.map (teamRow db))

/-- `GET /` (`index`): aggregate query over teams left-joined to
players, grouped by team code, ordered by player count descending;
renders the home page. -/
def index (ctx : Ctx) : Ctx × Resp :=
  (ctx, Resp.renderTeams (indexRows ctx.db))

/-- `GET /team-image/<code>` (`team_image`): look the team up by code;
`if not result.rows or not result.rows[0][0] or not result.rows[0][1]`
aborts with 404 (Python truthiness: a missing row, a NULL or empty
blob, and a NULL or empty MIME string are all falsy); otherwise respond
with the raw bytes under the stored MIME type. -/
def team_image (ctx : Ctx) (code : String) : Ctx × Resp :=
  match ctx.db.teams.find? (fun t => t.code == code) with
  | none => (ctx, Resp.notFound)
  | some t =>
    match t.image_data, t.image_mime with
    | some d, some m =>
      if d = [] ∨ m = "" then (ctx, Resp.notFound)
      else (ctx, Resp.imageResponse d m)
    | some _, none => (ctx, Resp.notFound)
    | none, _ => (ctx, Resp.notFound)

/-- `GET /about/` (`about`): static render. -/
def about (ctx : Ctx) : Ctx × Resp :=
  (ctx, Resp.renderPage "about")

/-- The rows of the things list: things joined to users on
`things.user_id = users.id`, selecting id, name and the owner's name,
ordered by thing name ascending.  The join drops a thing whose owner id
matches no user row. -/
def thingsListRows (db : DB) : List (Nat × String × String) :=
  List.insertionSort (fun a b => a.2.1 ≤ b.2.1)
    (db.things.filterMap (fun t =>
      (db.users.find? (fun u => u.id == t.user_id)).map
        (fun u => (t.id, t.name, u.username))))

/-- `GET /things/` (`show_all_things`): render the joined list. -/
def show_all_things (ctx : Ctx) : Ctx × Resp :=
  (ctx, Resp.renderThings (thingsListRows ctx.db))

/-- `GET /thing/<int:id>` (`show_one_thing`): select the thing joined
to its owner by id; if a row comes back, render the detail page with
id, name, price, user_id and owner name; otherwise produce the
structured not-found response. -/
def show_one_thing (ctx : Ctx) (id : Nat) : Ctx × Resp :=
  match ctx.db.things.find? (fun t => t.id == id) with
  | none => (ctx, not_found_error)
  | some t =>
    match ctx.db.users.find? (fun u => u.id == t.user_id) with
    | none => (ctx, not_found_error)
    | some u => (ctx, Resp.renderThing t.id t.name t.price t.user_id u.username)

/-- Flash text `f"Thing '{name}' added"`. -/
def thingAddedMsg (name : String) : String :=
  "Thing " ++ sQuote ++ name ++ sQuote ++ " added"

/-- Body of `POST /add` (`add_a_thing`, inside the gate): read `name`
and `price` from the form, escape the name, read `session["user_id"]`
(a `KeyError`, modelled as `.error`, when the key is absent), insert
one row owned by that id, flash success naming the item, redirect to
the things list.  A missing `name` field makes `html.escape(None)`
raise, also modelled as `.error`. -/
def add_a_thing_inner (ctx : Ctx) (form : Form) : Except Unit (Ctx × Resp) :=
  match formGet form "name" with
  | none => Except.error ()
  | some rawName =>
    let name := htmlEscape rawName
    let price := formGet form "price"
    match sessGet ctx.sess "user_id" with
    | some (SessVal.nat user_id) =>
      let row : Thing :=
        { id := ctx.db.next_thing_id, name := name, price := price,
          user_id := user_id }
      let ctx := { ctx with db :=
        { ctx.db with things := ctx.db.things ++ [row],
                      next_thing_id := ctx.db.next_thing_id + 1 } }
      Except.ok (addFlash ctx (thingAddedMsg name) "success", Resp.redirect "/things")
    | some (SessVal.str _) => Except.error ()
    | none => Except.error ()

/-- Body of `GET /delete/<int:id>` (`delete_a_thing`, inside the gate):
read `session["user_id"]` (`KeyError` when absent), then
`DELETE FROM things WHERE id=? AND user_id=?` — one conditional
statement removing exactly the rows matching both — flash success
unconditionally, redirect to the things list. -/
def delete_a_thing_inner (ctx : Ctx) (id : Nat) : Except Unit (Ctx × Resp) :=
  match sessGet ctx.sess "user_id" with
  | some (SessVal.nat user_id) =>
    let ctx := { ctx with db :=
      { ctx.db with things :=
          ctx.db.things.filter (fun t => !(t.id == id && t.user_id == user_id)) } }
    Except.ok (addFlash ctx "Thing deleted" "success", Resp.redirect "/things")
  | some (SessVal.str _) => Except.error ()
  | none => Except.error ()

/-- Modelled from the spec: the `login_required` gate lives in
`app/helpers/auth.py`, which is not part of the snapshot; per the spec
(§4.1), if the session contains a `user_id` the wrapped handler runs,
otherwise the gate redirects to the login page without executing any
store mutation. -/
def login_required (handler : Ctx → Except Unit (Ctx × Resp)) (ctx : Ctx) :
    Except Unit (Ctx × Resp) :=
  if (sessGet ctx.sess "user_id").isSome then handler ctx
  else Except.ok (ctx, Resp.redirect "/login")

/-- `POST /add` (`add_a_thing`): the gated create handler. -/
def add_a_thing (ctx : Ctx) (form : Form) : Except Unit (Ctx × Resp) :=
  login_required (fun c => add_a_thing_inner c form) ctx

/-- `GET /delete/<int:id>` (`delete_a_thing`): the gated delete
handler. -/
def delete_a_thing (ctx : Ctx) (id : Nat) : Except Unit (Ctx × Resp) :=
  login_required (fun c => delete_a_thing_inner c id) ctx

/-- `GET /register` (`register_form`): static render. -/
def register_form (ctx : Ctx) : Ctx × Resp :=
  (ctx, Resp.renderPage "register")

/-- `GET /login` (`login_form`): static render. -/
def login_form (ctx : Ctx) : Ctx × Resp :=
  (ctx, Resp.renderPage "login")

/-- Flash text `f"User {username} registered successfully"`. -/
def userRegisteredMsg (username : String) : String :=
  "User " ++ username ++ " registered successfully"

/-- `POST /add-user` (`add_user`): read `username` and `password` from
the form (a missing field makes `html.escape(None)` or
`generate_password_hash(None)` raise, modelled as `.error`), escape
the username, hash the password, then
`INSERT OR IGNORE INTO users (username, password)`.  When the unique
username constraint ignores the insert (`rows_affected == 0`): flash
the error and redirect to `/signup/`.  Otherwise: store the new row,
put its rowid under session key `"userid"` and the username under
`"username"`, flash success, redirect home. -/
def add_user (ctx : Ctx) (form : Form) : Except Unit (Ctx × Resp) :=
  match formGet form "username" with
  | none => Except.error ()
  | some rawUsername =>
    match formGet form "password" with
    | none => Except.error ()
    | some password =>
    let username := htmlEscape rawUsername
    let hash := generate_password_hash password
    if ctx.db.users.any (fun u => u.username == username) then
      Except.ok (addFlash ctx "Username already exists." "error",
        Resp.redirect "/signup/")
    else
      let uid := ctx.db.next_user_id
      let ctx := { ctx with
        db := { ctx.db with
          users := ctx.db.users ++ [{ id := uid, username := username, password := hash }],
          next_user_id := uid + 1 },
        sess := sessSet (sessSet ctx.sess "userid" (SessVal.nat uid))
          "username" (SessVal.str username) }
      Except.ok (addFlash ctx (userRegisteredMsg username) "success", Resp.redirect "/")

/-- `POST /login-user` (`login_user`): select the first user row whose
username equals the posted one (a missing field binds `NULL`, which
matches no row).  If a row is found, verify the password against
`user[2]` (the stored hash); on success store `user[0]` under session
key `"userid"` and `user[1]` under `"username"`, flash success,
redirect home.  Every failure (no row, or hash mismatch) falls through
to one shared response: flash "Invalid credentials" / "error" and
redirect to `/login`.  `check_password_hash(hash, None)` raises,
modelled as `.error`. -/
def login_user (ctx : Ctx) (form : Form) : Except Unit (Ctx × Resp) :=
  let username := formGet form "username"
  match ctx.db.users.find? (fun u => (some u.username : Option String) == username) with
  | some user =>
    match formGet form "password" with
    | none => Except.error ()
    | some password =>
      if check_password_hash user.password password then
        let ctx := { ctx with
          sess := sessSet (sessSet ctx.sess "userid" (SessVal.nat user.id))
            "username" (SessVal.str user.username) }
        Except.ok (addFlash ctx "Login successful" "success", Resp.redirect "/")
      else
        Except.ok (addFlash ctx "Invalid credentials" "error", Resp.redirect "/login")
  | none =>
    Except.ok (addFlash ctx "Invalid credentials" "error", Resp.redirect "/login")

/-- `GET /logout` (`logout`): `session.pop("userid", None)` and
`session.pop("username", None)`, flash success, redirect home.  No
gate wraps this route. -/
def logout (ctx : Ctx) : Ctx × Resp :=
  (addFlash { ctx with sess := sessPop (sessPop ctx.sess "userid") "username" }
    "Logged out successfully" "success", Resp.redirect "/")

/-- One inbound request to any route of the module. -/
inductive Req where
  | getIndex
  | getTeamImage (code : String)
  | getAbout
  | getThings
  | getThing (id : Nat)
  | postAdd (form : Form)
  | getDelete (id : Nat)
  | getRegister
  | getLogin
  | postAddUser (form : Form)
  | postLoginUser (form : Form)
  | getLogout
deriving DecidableEq, Repr

/-- Router: dispatch a request to its handler. -/
def handle : Req → Ctx → Except Unit (Ctx × Resp)
  | Req.getIndex, ctx => Except.ok (index ctx)
  | Req.getTeamImage code, ctx => Except.ok (team_image ctx code)
  | Req.getAbout, ctx => Except.ok (about ctx)
  | Req.getThings, ctx => Except.ok (show_all_things ctx)
  | Req.getThing id, ctx => Except.ok (show_one_thing ctx id)
  | Req.postAdd form, ctx => add_a_thing ctx form
  | Req.getDelete id, ctx => delete_a_thing ctx id
  | Req.getRegister, ctx => Except.ok (register_form ctx)
  | Req.getLogin, ctx => Except.ok (login_form ctx)
  | Req.postAddUser form, ctx => add_user ctx form
  | Req.postLoginUser form, ctx => login_user ctx form
  | Req.getLogout, ctx => Except.ok (logout ctx)

/-- The request-state transformer: the state after handling a request.
In every handler the modelled exceptions occur before any session or
store write, so a failed request leaves the state unchanged. -/
def stepCtx (r : Req) (ctx : Ctx) : Ctx :=
  match handle r ctx with
  | Except.ok (ctx2, _) => ctx2
  | Except.error _ => ctx

/-- Session states reachable from a fresh (empty) session using only
this module's routes, with arbitrary store and flash state at each
step. -/
inductive ReachableSess : Session → Prop where
  | start : ReachableSess []
  | step (r : Req) (db : DB) (fl : List (String × String)) {s : Session} :
      ReachableSess s → ReachableSess (stepCtx r { db := db, sess := s, flashes := fl }).sess

/-- An empty store, as a base state for concrete instances. -/
def emptyDB : DB :=
  { users := [], things := [], teams := [], players := [],
    next_user_id := 1, next_thing_id := 1 }

/-- A concrete request state for the non-owner delete instance: one
thing owned by user 5, session identity 7. -/
def c2Ctx : Ctx :=
  { db := { emptyDB with
      things := [{ id := 1, name := "Bike", price := some "50", user_id := 5 }],
      next_thing_id := 2 },
    sess := [("user_id", SessVal.nat 7)],
    flashes := [] }

/-- A concrete request state for the duplicate-registration instance:
one user named bob. -/
def c3Ctx : Ctx :=
  { db := { emptyDB with
      users := [{ id := 1, username := "bob", password := generate_password_hash "pw" }],
      next_user_id := 2 },
    sess := [],
    flashes := [] }

/-- A concrete request state refuting the literal duplicate-username
claim: the store holds username a&lt;b — the very text this module
stores when someone registers a<b. -/
def c3cxCtx : Ctx :=
  { db := { emptyDB with
      users := [{ id := 1, username := "a&lt;b", password := generate_password_hash "pw" }],
      next_user_id := 2 },
    sess := [],
    flashes := [] }

/-- A concrete request state for the login-failure instance: one user
alice with the hash of pw1. -/
def c5Ctx : Ctx :=
  { db := { emptyDB with
      users := [{ id := 1, username := "alice", password := generate_password_hash "pw1" }],
      next_user_id := 2 },
    sess := [],
    flashes := [] }

/-- A concrete request state for the thing-detail instance: one thing
owned by alice. -/
def c6Ctx : Ctx :=
  { db := { emptyDB with
      users := [{ id := 5, username := "alice", password := generate_password_hash "pw" }],
      things := [{ id := 1, name := "Bike", price := some "50", user_id := 5 }],
      next_user_id := 6,
      next_thing_id := 2 },
    sess := [],
    flashes := [] }

/-- A concrete request state for the team-image instances: team t1 has
an empty (but non-NULL) image blob, team t2 a real one. -/
def c7Ctx : Ctx :=
  { db := { emptyDB with
      teams := [{ code := "t1", name := "Tigers", image_data := some [],
                  image_mime := some "image/png" },
                { code := "t2", name := "Lions", image_data := some [1, 2],
                  image_mime := some "image/png" }] },
    sess := [],
    flashes := [] }

/-- A concrete request state for the team-ordering instance: team a has
two players, team b one. -/
def c8Ctx : Ctx :=
  { db := { emptyDB with
      teams := [{ code := "b", name := "Bees", image_data := none, image_mime := none },
                { code := "a", name := "Ants", image_data := none, image_mime := none }],
      players := [{ id := 1, team := "a" }, { id := 2, team := "a" },
                  { id := 3, team := "b" }] },
    sess := [],
    flashes := [] }

/-- A concrete request state for the logout instance: an identity plus
an unrelated session key. -/
def logoutWitCtx : Ctx :=
  { db := emptyDB,
    sess := [("userid", SessVal.nat 3), ("username", SessVal.str "alice"),
             ("theme", SessVal.str "dark")],
    flashes := [] }

/- ## Helper lemmas about the session dictionary -/

theorem sessGet_cons_ne (a : String) (v : SessVal) (s : Session) (k2 : String)
    (h : a ≠ k2) : sessGet ((a, v) :: s) k2 = sessGet s k2 := by
  simp [sessGet, List.find?_cons, h]

theorem sessGet_filter_ne (s : Session) (k k2 : String) (h : k2 ≠ k) :
    sessGet (s.filter (fun p => !(p.1 == k))) k2 = sessGet s k2 := by
  induction s with
  | nil => rfl
  | cons p t ih =>
    by_cases hk2 : p.1 = k2
    · have hk : (p.1 == k) = false := by
        simp only [beq_eq_false_iff_ne, ne_eq]
        exact fun e => h (hk2.symm.trans e)
      have hq : (p.1 == k2) = true := by simpa using hk2
      simp [sessGet, List.filter_cons, List.find?_cons, hk, hq]
    · have hq : (p.1 == k2) = false := by simpa using hk2
      by_cases hk : p.1 = k
      · have hkb : (p.1 == k) = true := by simpa using hk
        simpa [sessGet, List.filter_cons, List.find?_cons, hkb, hq] using ih
      · have hkb : (p.1 == k) = false := by simpa using hk
        simpa [sessGet, List.filter_cons, List.find?_cons, hkb, hq] using ih

theorem sessGet_pop_self (s : Session) (k : String) :
    sessGet (sessPop s k) k = none := by
  induction s with
  | nil => rfl
  | cons p t ih =>
    by_cases hp : p.1 = k
    · have hb : (p.1 == k) = true := by simpa using hp
      simp only [sessPop, List.filter_cons, hb, Bool.not_true, Bool.false_eq_true,
        if_false] at ih ⊢
      exact ih
    · have hb : (p.1 == k) = false := by simpa using hp
      simp only [sessPop, List.filter_cons, hb, Bool.not_false, if_true] at ih ⊢
      rw [sessGet_cons_ne p.1 p.2 _ k (by simpa using hp)]
      exact ih

theorem sessGet_pop_other (s : Session) (k k2 : String) (h : k2 ≠ k) :
    sessGet (sessPop s k) k2 = sessGet s k2 :=
  sessGet_filter_ne s k k2 h

theorem sessGet_set_self (s : Session) (k : String) (v : SessVal) :
    sessGet (sessSet s k v) k = some v := by
  simp [sessSet, sessGet, List.find?_cons]

theorem sessGet_set_other (s : Session) (k k2 : String) (v : SessVal) (h : k2 ≠ k) :
    sessGet (sessSet s k v) k2 = sessGet s k2 :=
  (sessGet_cons_ne k v _ k2 (Ne.symm h)).trans (sessGet_filter_ne s k k2 h)

theorem sessPop_comm (s : Session) (k1 k2 : String) :
    sessPop (sessPop s k1) k2 = sessPop (sessPop s k2) k1 := by
  simp only [sessPop, List.filter_filter]
  exact List.filter_congr (fun a _ => by rw [Bool.and_comm])

theorem sessPop_idem (s : Session) (k : String) :
    sessPop (sessPop s k) k = sessPop s k := by
  simp only [sessPop, List.filter_filter]
  exact List.filter_congr (fun a _ => Bool.and_self _)

theorem sessPop_pop_idem (s : Session) (a b : String) :
    sessPop (sessPop (sessPop (sessPop s a) b) a) b = sessPop (sessPop s a) b := by
  rw [sessPop_comm (sessPop s a) b a, sessPop_idem, sessPop_idem]

/- ## Claim theorems -/

/-- Claim C1: for every authenticated session with identity user id
`uid` (the gate's key `"user_id"` holding `uid`), a `POST /add` with
form fields `name` and `price` — and any other fields the client cares
to send, an `owner` field included — appends exactly one row to
`things`, owned by `uid`, flashes a success message naming the created
item, and redirects to the thing list. -/
theorem add_thing_sets_owner (ctx : Ctx) (form : Form) (name price : String) (uid : Nat)
    (hsess : sessGet ctx.sess "user_id" = some (SessVal.nat uid))
    (hname : formGet form "name" = some name)
    (hprice : formGet form "price" = some price) :
    add_a_thing ctx form =
      Except.ok
        ({ ctx with
            db := { ctx.db with
              things := ctx.db.things ++
                [{ id := ctx.db.next_thing_id, name := htmlEscape name,
                   price := some price, user_id := uid }],
              next_thing_id := ctx.db.next_thing_id + 1 },
            flashes := ctx.flashes ++ [(thingAddedMsg (htmlEscape name), "success")] },
          Resp.redirect "/things") := by
  simp [add_a_thing, login_required, hsess, add_a_thing_inner, hname, hprice, addFlash]

/-- Witness for C1 at a concrete state: user 7 posts name, price and a
spoofed owner field; the inserted row is owned by 7. -/
theorem add_thing_sets_owner_wit :
    add_a_thing { db := emptyDB, sess := [("user_id", SessVal.nat 7)], flashes := [] }
        [("name", "Bike"), ("price", "50"), ("owner", "99")] =
      Except.ok
        ({ db :=
             { users := [],
               things := [{ id := 1, name := "Bike", price := some "50", user_id := 7 }],
               teams := [],
               players := [],
               next_user_id := 1,
               next_thing_id := 2 },
           sess := [("user_id", SessVal.nat 7)],
           flashes := [(thingAddedMsg "Bike", "success")] },
          Resp.redirect "/things") := by
  have h := add_thing_sets_owner
    { db := emptyDB, sess := [("user_id", SessVal.nat 7)], flashes := [] }
    [("name", "Bike"), ("price", "50"), ("owner", "99")] "Bike" "50" 7 rfl rfl rfl
  rw [h]
  rfl

/-- Claim C9: `GET /logout` always redirects home with a
success-category flash, removes the identity keys (`userid`,
`username`) from the session, leaves every other session key and the
store untouched, is idempotent on the session, and runs for every
session state (no authorization gate). -/
theorem logout_props (ctx : Ctx) :
    (logout ctx).2 = Resp.redirect "/" ∧
    (logout ctx).1.flashes = ctx.flashes ++ [("Logged out successfully", "success")] ∧
    sessGet (logout ctx).1.sess "userid" = none ∧
    sessGet (logout ctx).1.sess "username" = none ∧
    (logout ((logout ctx).1)).1.sess = (logout ctx).1.sess ∧
    (∀ k, k ≠ "userid" → k ≠ "username" →
      sessGet (logout ctx).1.sess k = sessGet ctx.sess k) ∧
    (logout ctx).1.db = ctx.db := by
  refine ⟨rfl, rfl, ?_, ?_, ?_, ?_, rfl⟩
  · rw [show (logout ctx).1.sess = sessPop (sessPop ctx.sess "userid") "username" from rfl]
    rw [sessGet_pop_other _ _ _ (by decide)]
    exact sessGet_pop_self _ _
  · exact sessGet_pop_self _ _
  · exact sessPop_pop_idem ctx.sess "userid" "username"
  · intro k h1 h2
    rw [show (logout ctx).1.sess = sessPop (sessPop ctx.sess "userid") "username" from rfl]
    rw [sessGet_pop_other _ _ _ h2, sessGet_pop_other _ _ _ h1]

/-- Witness for C9 at a concrete session holding an identity and an
unrelated key. -/
theorem logout_props_wit :
    sessGet (logout logoutWitCtx).1.sess "userid" = none ∧
    sessGet (logout logoutWitCtx).1.sess "theme" = some (SessVal.str "dark") := by
  have h := logout_props logoutWitCtx
  exact ⟨h.2.2.1, (h.2.2.2.2.2.1 "theme" (by decide) (by decide)).trans (by decide)⟩

/- Frame helper lemmas used for the C10 theorem. -/

theorem stepCtx_elim (r : Req) (ctx : Ctx) (P : Ctx → Prop)
    (hok : ∀ c2 resp, handle r ctx = Except.ok (c2, resp) → P c2)
    (herr : P ctx) : P (stepCtx r ctx) := by
  unfold stepCtx
  rcases h : handle r ctx with e | ⟨c2, resp⟩
  · exact herr
  · exact hok c2 resp h

theorem team_image_fst (ctx : Ctx) (code : String) :
    (team_image ctx code).1 = ctx := by
  unfold team_image
  repeat' split
  all_goals rfl

theorem show_one_thing_fst (ctx : Ctx) (id : Nat) :
    (show_one_thing ctx id).1 = ctx := by
  unfold show_one_thing
  repeat' split
  all_goals rfl

theorem add_a_thing_frame (ctx : Ctx) (form : Form) (c2 : Ctx) (resp : Resp)
    (h : add_a_thing ctx form = Except.ok (c2, resp)) :
    c2.db.teams = ctx.db.teams ∧ c2.db.players = ctx.db.players ∧
    c2.db.users = ctx.db.users ∧ c2.sess = ctx.sess := by
  unfold add_a_thing login_required add_a_thing_inner at h
  dsimp only at h
  split at h
  · split at h
    · simp at h
    · rcases hs : sessGet ctx.sess "user_id" with _ | v
      · rw [hs] at h
        simp at h
      · rw [hs] at h
        cases v with
        | nat n => cases h; exact ⟨rfl, rfl, rfl, rfl⟩
        | str s => simp at h
  · cases h; exact ⟨rfl, rfl, rfl, rfl⟩

theorem delete_a_thing_frame (ctx : Ctx) (id : Nat) (c2 : Ctx) (resp : Resp)
    (h : delete_a_thing ctx id = Except.ok (c2, resp)) :
    c2.db.teams = ctx.db.teams ∧ c2.db.players = ctx.db.players ∧
    c2.db.users = ctx.db.users ∧ c2.sess = ctx.sess := by
  unfold delete_a_thing login_required delete_a_thing_inner at h
  dsimp only at h
  split at h
  · rcases hs : sessGet ctx.sess "user_id" with _ | v
    · rw [hs] at h
      simp at h
    · rw [hs] at h
      cases v with
      | nat n => cases h; exact ⟨rfl, rfl, rfl, rfl⟩
      | str s => simp at h
  · cases h; exact ⟨rfl, rfl, rfl, rfl⟩

theorem add_user_frame (ctx : Ctx) (form : Form) (c2 : Ctx) (resp : Resp)
    (h : add_user ctx form = Except.ok (c2, resp)) :
    c2.db.teams = ctx.db.teams ∧ c2.db.players = ctx.db.players ∧
    c2.db.things = ctx.db.things := by
  unfold add_user at h
  rcases hu : formGet form "username" with _ | u
  · rw [hu] at h
    simp at h
  · rw [hu] at h
    dsimp only at h
    rcases hp : formGet form "password" with _ | p
    · rw [hp] at h
      simp at h
    · rw [hp] at h
      dsimp only at h
      by_cases hc : (ctx.db.users.any (fun q => q.username == htmlEscape u)) = true
      · rw [if_pos hc] at h
        cases h
        exact ⟨rfl, rfl, rfl⟩
      · rw [if_neg hc] at h
        cases h
        exact ⟨rfl, rfl, rfl⟩

theorem login_user_frame (ctx : Ctx) (form : Form) (c2 : Ctx) (resp : Resp)
    (h : login_user ctx form = Except.ok (c2, resp)) :
    c2.db = ctx.db := by
  unfold login_user at h
  dsimp only at h
  rcases hf : ctx.db.users.find?
      (fun u => (some u.username : Option String) == formGet form "username") with _ | user
  · rw [hf] at h
    cases h
    rfl
  · rw [hf] at h
    rcases hp : formGet form "password" with _ | p
    · rw [hp] at h
      simp at h
    · rw [hp] at h
      dsimp only at h
      by_cases hc : (check_password_hash user.password p) = true
      · rw [if_pos hc] at h
        cases h
        rfl
      · rw [if_neg hc] at h
        cases h
        rfl

/-- Claim C10: every route of the module leaves the `teams` and
`players` tables exactly as they were: no handler writes either
table. -/
theorem routes_preserve_teams_players (r : Req) (ctx : Ctx) :
    (stepCtx r ctx).db.teams = ctx.db.teams ∧
    (stepCtx r ctx).db.players = ctx.db.players := by
  cases r with
  | getIndex => exact ⟨rfl, rfl⟩
  | getAbout => exact ⟨rfl, rfl⟩
  | getThings => exact ⟨rfl, rfl⟩
  | getRegister => exact ⟨rfl, rfl⟩
  | getLogin => exact ⟨rfl, rfl⟩
  | getLogout => exact ⟨rfl, rfl⟩
  | getTeamImage code =>
    have h : stepCtx (Req.getTeamImage code) ctx = (team_image ctx code).1 := rfl
    rw [h, team_image_fst]
    exact ⟨rfl, rfl⟩
  | getThing id =>
    have h : stepCtx (Req.getThing id) ctx = (show_one_thing ctx id).1 := rfl
    rw [h, show_one_thing_fst]
    exact ⟨rfl, rfl⟩
  | postAdd form =>
    refine stepCtx_elim (Req.postAdd form) ctx
      (fun c => c.db.teams = ctx.db.teams ∧ c.db.players = ctx.db.players)
      ?_ ⟨rfl, rfl⟩
    intro c2 resp h
    have hf := add_a_thing_frame ctx form c2 resp h
    exact ⟨hf.1, hf.2.1⟩
  | getDelete id =>
    refine stepCtx_elim (Req.getDelete id) ctx
      (fun c => c.db.teams = ctx.db.teams ∧ c.db.players = ctx.db.players)
      ?_ ⟨rfl, rfl⟩
    intro c2 resp h
    have hf := delete_a_thing_frame ctx id c2 resp h
    exact ⟨hf.1, hf.2.1⟩
  | postAddUser form =>
    refine stepCtx_elim (Req.postAddUser form) ctx
      (fun c => c.db.teams = ctx.db.teams ∧ c.db.players = ctx.db.players)
      ?_ ⟨rfl, rfl⟩
    intro c2 resp h
    have hf := add_user_frame ctx form c2 resp h
    exact ⟨hf.1, hf.2.1⟩
  | postLoginUser form =>
    refine stepCtx_elim (Req.postLoginUser form) ctx
      (fun c => c.db.teams = ctx.db.teams ∧ c.db.players = ctx.db.players)
      ?_ ⟨rfl, rfl⟩
    intro c2 resp h
    have hf := login_user_frame ctx form c2 resp h
    rw [hf]
    exact ⟨rfl, rfl⟩

theorem filter_all_true {α : Type} (p : α → Bool) :
    ∀ (l : List α), (∀ a ∈ l, p a = true) → l.filter p = l
  | [], _ => rfl
  | a :: t, h => by
    rw [List.filter_cons, if_pos (h a (List.mem_cons_self a t)),
      filter_all_true p t (fun b hb => h b (List.mem_cons_of_mem a hb))]

/-- Claim C2: a `GET /delete/{id}` for a thing `t` issued by an
authenticated session whose user id differs from `t`'s owner leaves the
`things` table exactly as it was — the returned state is the input
state with only the success flash appended — and still redirects to
`/things`; and in every authenticated state the delete handler is the
single conditional statement removing exactly the rows matching both
the given id and the session's user id. -/
theorem delete_nonowner_noop (ctx : Ctx) (t : Thing) (uid : Nat)
    (hsess : sessGet ctx.sess "user_id" = some (SessVal.nat uid))
    (ht : t ∈ ctx.db.things)
    (hown : t.user_id ≠ uid)
    (hnodup : (ctx.db.things.map Thing.id).Nodup) :
    (delete_a_thing ctx t.id =
      Except.ok ({ ctx with flashes := ctx.flashes ++ [("Thing deleted", "success")] },
        Resp.redirect "/things")) ∧
    (∀ c : Ctx, ∀ i u2, sessGet c.sess "user_id" = some (SessVal.nat u2) →
      delete_a_thing c i =
        Except.ok
          ({ c with
              db := { c.db with things :=
                c.db.things.filter (fun r => !(r.id == i && r.user_id == u2)) },
              flashes := c.flashes ++ [("Thing deleted", "success")] },
            Resp.redirect "/things")) := by
  have hm : ∀ c : Ctx, ∀ i u2, sessGet c.sess "user_id" = some (SessVal.nat u2) →
      delete_a_thing c i =
        Except.ok
          ({ c with
              db := { c.db with things :=
                c.db.things.filter (fun r => !(r.id == i && r.user_id == u2)) },
              flashes := c.flashes ++ [("Thing deleted", "success")] },
            Resp.redirect "/things") := by
    intro c i u2 hs2
    simp [delete_a_thing, login_required, hs2, delete_a_thing_inner, addFlash]
  have hall : ∀ r ∈ ctx.db.things, (!(r.id == t.id && r.user_id == uid)) = true := by
    intro r hr
    have hnot : ¬r.id = t.id ∨ ¬r.user_id = uid := by
      by_cases h1 : r.id = t.id
      · right
        intro h2
        have hrt : r = t := List.inj_on_of_nodup_map hnodup hr ht h1
        exact hown (hrt ▸ h2)
      · left
        exact h1
    simpa using hnot
  refine ⟨?_, hm⟩
  rw [hm ctx t.id uid hsess, filter_all_true _ ctx.db.things hall]

/-- Witness for C2: user 7 deletes thing 1 owned by user 5; state is
returned unchanged apart from the success flash. -/
theorem delete_nonowner_noop_wit :
    delete_a_thing c2Ctx 1 =
      Except.ok ({ c2Ctx with flashes := [("Thing deleted", "success")] },
        Resp.redirect "/things") := by
  have h := (delete_nonowner_noop c2Ctx
    { id := 1, name := "Bike", price := some "50", user_id := 5 } 7
    rfl (by decide) (by decide) (by decide)).1
  exact h

/-- Counterexample to C3 as stated: username a&lt;b already exists in
the store (it is exactly what this module stores when a<b is
registered), yet a POST /add-user with that same username re-escapes it
to a&amp;lt;b, finds no collision, inserts a second User row,
establishes a session identity and redirects home with a success flash
— not the claimed no-insert / error-flash / signup-redirect outcome. -/
theorem add_user_double_register_cx :
    (∃ u ∈ c3cxCtx.db.users, u.username = "a&lt;b") ∧
    add_user c3cxCtx [("username", "a&lt;b"), ("password", "pw2")] =
      Except.ok
        ({ db :=
             { users := [{ id := 1, username := "a&lt;b",
                           password := generate_password_hash "pw" },
                         { id := 2, username := "a&amp;lt;b",
                           password := generate_password_hash "pw2" }],
               things := [],
               teams := [],
               players := [],
               next_user_id := 3,
               next_thing_id := 1 },
           sess := [("username", SessVal.str "a&amp;lt;b"), ("userid", SessVal.nat 2)],
           flashes := [(userRegisteredMsg "a&amp;lt;b", "success")] },
          Resp.redirect "/") := by
  exact ⟨by decide, rfl⟩

/-- Claim C3 (amended): the duplicate check is keyed on the
HTML-escaped posted username.  If the escaped username equals an
existing row's username, no row is inserted, the exact error flash is
set, the session is untouched and the handler redirects to the signup
page; otherwise exactly one row holding the escaped username is
inserted and the session identity is established from the inserted
row's id and the escaped username. -/
theorem add_user_escaped_collision_or_insert (ctx : Ctx) (form : Form)
    (username password : String)
    (hu : formGet form "username" = some username)
    (hp : formGet form "password" = some password) :
    ((∃ u ∈ ctx.db.users, u.username = htmlEscape username) →
      add_user ctx form =
        Except.ok
          ({ ctx with flashes := ctx.flashes ++ [("Username already exists.", "error")] },
            Resp.redirect "/signup/")) ∧
    ((∀ u ∈ ctx.db.users, u.username ≠ htmlEscape username) →
      add_user ctx form =
        Except.ok
          ({ ctx with
              db := { ctx.db with
                users := ctx.db.users ++
                  [{ id := ctx.db.next_user_id, username := htmlEscape username,
                     password := generate_password_hash password }],
                next_user_id := ctx.db.next_user_id + 1 },
              sess := sessSet (sessSet ctx.sess "userid" (SessVal.nat ctx.db.next_user_id))
                "username" (SessVal.str (htmlEscape username)),
              flashes := ctx.flashes ++ [(userRegisteredMsg (htmlEscape username), "success")] },
            Resp.redirect "/")) := by
  constructor
  · rintro ⟨u, hu2, he⟩
    have hany : (ctx.db.users.any (fun q => q.username == htmlEscape username)) = true :=
      List.any_eq_true.mpr ⟨u, hu2, by simpa using he⟩
    simp [add_user, hu, hp, hany, addFlash]
  · intro hall
    have hany : (ctx.db.users.any (fun q => q.username == htmlEscape username)) = false := by
      apply Bool.eq_false_iff.mpr
      intro hc
      rcases List.any_eq_true.mp hc with ⟨q, hq, he⟩
      exact hall q hq (by simpa using he)
    simp [add_user, hu, hp, hany, addFlash]

/-- Witness for the amended C3: registering bob a second time flashes
the error and leaves the store and session alone, while registering eve
into an empty store inserts her row and sets the session identity. -/
theorem add_user_escaped_collision_wit :
    add_user c3Ctx [("username", "bob"), ("password", "pw2")] =
      Except.ok ({ c3Ctx with flashes := [("Username already exists.", "error")] },
        Resp.redirect "/signup/") ∧
    add_user { db := emptyDB, sess := [], flashes := [] }
        [("username", "eve"), ("password", "pw")] =
      Except.ok
        ({ db :=
             { users := [{ id := 1, username := "eve",
                           password := generate_password_hash "pw" }],
               things := [],
               teams := [],
               players := [],
               next_user_id := 2,
               next_thing_id := 1 },
           sess := [("username", SessVal.str "eve"), ("userid", SessVal.nat 1)],
           flashes := [(userRegisteredMsg "eve", "success")] },
          Resp.redirect "/") := by
  constructor
  · exact (add_user_escaped_collision_or_insert c3Ctx
      [("username", "bob"), ("password", "pw2")] "bob" "pw2" rfl rfl).1
      ⟨{ id := 1, username := "bob", password := generate_password_hash "pw" },
        by decide, rfl⟩
  · exact (add_user_escaped_collision_or_insert { db := emptyDB, sess := [], flashes := [] }
      [("username", "eve"), ("password", "pw")] "eve" "pw" rfl rfl).2 (by decide)

/-- Claim C5: a login whose username matches no user row and a login
whose username matches but whose password fails verification produce
the same response: the same "Invalid credentials" / "error" flash and
the same redirect to `/login`. -/
theorem login_failure_uniform (ctx : Ctx) (form : Form) (username : String)
    (hu : formGet form "username" = some username) :
    ((∀ u ∈ ctx.db.users, u.username ≠ username) →
      login_user ctx form =
        Except.ok ({ ctx with flashes := ctx.flashes ++ [("Invalid credentials", "error")] },
          Resp.redirect "/login")) ∧
    (∀ (user : User) (password : String),
      ctx.db.users.find?
        (fun u => (some u.username : Option String) == formGet form "username") = some user →
      formGet form "password" = some password →
      check_password_hash user.password password = false →
      login_user ctx form =
        Except.ok ({ ctx with flashes := ctx.flashes ++ [("Invalid credentials", "error")] },
          Resp.redirect "/login")) := by
  constructor
  · intro hall
    have hfind : ctx.db.users.find?
        (fun u => (some u.username : Option String) == formGet form "username") = none := by
      rw [List.find?_eq_none]
      intro u hu2
      simp [hu]
      exact hall u hu2
    simp [login_user, hfind, addFlash]
  · intro user password hfind hp hc
    simp [login_user, hfind, hp, hc, addFlash]

/-- Witness for C5: unknown user mallory and known user alice with a
wrong password get byte-identical failure responses. -/
theorem login_failure_uniform_wit :
    login_user c5Ctx [("username", "mallory"), ("password", "pw1")] =
      Except.ok ({ c5Ctx with flashes := [("Invalid credentials", "error")] },
        Resp.redirect "/login") ∧
    login_user c5Ctx [("username", "alice"), ("password", "pw2")] =
      Except.ok ({ c5Ctx with flashes := [("Invalid credentials", "error")] },
        Resp.redirect "/login") := by
  constructor
  · exact (login_failure_uniform c5Ctx
      [("username", "mallory"), ("password", "pw1")] "mallory" rfl).1 (by decide)
  · exact (login_failure_uniform c5Ctx
      [("username", "alice"), ("password", "pw2")] "alice" rfl).2
      { id := 1, username := "alice", password := generate_password_hash "pw1" }
      "pw2" (by decide) rfl (by decide)

/- ## Session-key lemmas for the reachability argument -/

theorem add_user_sess_user_id (ctx : Ctx) (form : Form) (c2 : Ctx) (resp : Resp)
    (h : add_user ctx form = Except.ok (c2, resp)) :
    sessGet c2.sess "user_id" = sessGet ctx.sess "user_id" := by
  unfold add_user at h
  rcases hu : formGet form "username" with _ | u
  · rw [hu] at h
    simp at h
  · rw [hu] at h
    dsimp only at h
    rcases hp : formGet form "password" with _ | p
    · rw [hp] at h
      simp at h
    · rw [hp] at h
      dsimp only at h
      by_cases hc : (ctx.db.users.any (fun q => q.username == htmlEscape u)) = true
      · rw [if_pos hc] at h
        cases h
        rfl
      · rw [if_neg hc] at h
        cases h
        show sessGet (sessSet (sessSet ctx.sess "userid" (SessVal.nat ctx.db.next_user_id))
          "username" (SessVal.str (htmlEscape u))) "user_id" = sessGet ctx.sess "user_id"
        rw [sessGet_set_other _ "username" "user_id" _ (by decide),
          sessGet_set_other _ "userid" "user_id" _ (by decide)]

theorem login_user_sess_user_id (ctx : Ctx) (form : Form) (c2 : Ctx) (resp : Resp)
    (h : login_user ctx form = Except.ok (c2, resp)) :
    sessGet c2.sess "user_id" = sessGet ctx.sess "user_id" := by
  unfold login_user at h
  dsimp only at h
  rcases hf : ctx.db.users.find?
      (fun u => (some u.username : Option String) == formGet form "username") with _ | user
  · rw [hf] at h
    cases h
    rfl
  · rw [hf] at h
    rcases hp : formGet form "password" with _ | p
    · rw [hp] at h
      simp at h
    · rw [hp] at h
      dsimp only at h
      by_cases hc : (check_password_hash user.password p) = true
      · rw [if_pos hc] at h
        cases h
        show sessGet (sessSet (sessSet ctx.sess "userid" (SessVal.nat user.id))
          "username" (SessVal.str user.username)) "user_id" = sessGet ctx.sess "user_id"
        rw [sessGet_set_other _ "username" "user_id" _ (by decide),
          sessGet_set_other _ "userid" "user_id" _ (by decide)]
      · rw [if_neg hc] at h
        cases h
        rfl

theorem stepCtx_user_id (r : Req) (ctx : Ctx) :
    sessGet (stepCtx r ctx).sess "user_id" = sessGet ctx.sess "user_id" := by
  cases r with
  | getIndex => rfl
  | getAbout => rfl
  | getThings => rfl
  | getRegister => rfl
  | getLogin => rfl
  | getTeamImage code =>
    have h : stepCtx (Req.getTeamImage code) ctx = (team_image ctx code).1 := rfl
    rw [h, team_image_fst]
  | getThing id =>
    have h : stepCtx (Req.getThing id) ctx = (show_one_thing ctx id).1 := rfl
    rw [h, show_one_thing_fst]
  | getLogout =>
    show sessGet (sessPop (sessPop ctx.sess "userid") "username") "user_id" =
      sessGet ctx.sess "user_id"
    rw [sessGet_pop_other _ _ _ (by decide), sessGet_pop_other _ _ _ (by decide)]
  | postAdd form =>
    refine stepCtx_elim (Req.postAdd form) ctx
      (fun c => sessGet c.sess "user_id" = sessGet ctx.sess "user_id") ?_ rfl
    intro c2 resp h
    rw [(add_a_thing_frame ctx form c2 resp h).2.2.2]
  | getDelete id =>
    refine stepCtx_elim (Req.getDelete id) ctx
      (fun c => sessGet c.sess "user_id" = sessGet ctx.sess "user_id") ?_ rfl
    intro c2 resp h
    rw [(delete_a_thing_frame ctx id c2 resp h).2.2.2]
  | postAddUser form =>
    refine stepCtx_elim (Req.postAddUser form) ctx
      (fun c => sessGet c.sess "user_id" = sessGet ctx.sess "user_id") ?_ rfl
    intro c2 resp h
    exact add_user_sess_user_id ctx form c2 resp h
  | postLoginUser form =>
    refine stepCtx_elim (Req.postLoginUser form) ctx
      (fun c => sessGet c.sess "user_id" = sessGet ctx.sess "user_id") ?_ rfl
    intro c2 resp h
    exact login_user_sess_user_id ctx form c2 resp h

theorem add_inner_keyerror (db : DB) (s : Session) (fl : List (String × String))
    (form : Form) (h : sessGet s "user_id" = none) :
    add_a_thing_inner { db := db, sess := s, flashes := fl } form = Except.error () := by
  unfold add_a_thing_inner
  rcases hn : formGet form "name" with _ | nm
  · rfl
  · dsimp only
    rw [h]

theorem delete_inner_keyerror (db : DB) (s : Session) (fl : List (String × String))
    (id : Nat) (h : sessGet s "user_id" = none) :
    delete_a_thing_inner { db := db, sess := s, flashes := fl } id = Except.error () := by
  unfold delete_a_thing_inner
  dsimp only
  rw [h]

/-- Claim C4: no route of the module ever writes session key
`"user_id"` (each route's step leaves its lookup unchanged); every
session reachable from a fresh session through the module's own routes
therefore lacks the key; and the identity lookup `session["user_id"]`
inside the thing-create and thing-delete handler bodies then raises a
`KeyError` (modelled as `.error`) on every such session. -/
theorem session_key_mismatch (s : Session) (hs : ReachableSess s) (r : Req) (ctx0 : Ctx)
    (db : DB) (fl : List (String × String)) (form : Form) (id : Nat) :
    sessGet (stepCtx r ctx0).sess "user_id" = sessGet ctx0.sess "user_id" ∧
    sessGet s "user_id" = none ∧
    add_a_thing_inner { db := db, sess := s, flashes := fl } form = Except.error () ∧
    delete_a_thing_inner { db := db, sess := s, flashes := fl } id = Except.error () := by
  have hnone : sessGet s "user_id" = none := by
    induction hs with
    | start => rfl
    | step r2 db2 fl2 hs2 ih => rw [stepCtx_user_id]; exact ih
  exact ⟨stepCtx_user_id r ctx0, hnone,
    add_inner_keyerror db s fl form hnone, delete_inner_keyerror db s fl id hnone⟩

/-- Witness for C4: after a concrete registration (which stores keys
`userid` and `username`), the session still lacks `user_id`, and the
create handler's identity lookup fails on it. -/
theorem session_key_mismatch_wit :
    sessGet (stepCtx (Req.postAddUser [("username", "alice"), ("password", "pw")])
      { db := emptyDB, sess := [], flashes := [] }).sess "user_id" = none ∧
    add_a_thing_inner
      { db := emptyDB,
        sess := (stepCtx (Req.postAddUser [("username", "alice"), ("password", "pw")])
          { db := emptyDB, sess := [], flashes := [] }).sess,
        flashes := [] } [("name", "Bike"), ("price", "5")] = Except.error () := by
  have hr : ReachableSess (stepCtx (Req.postAddUser [("username", "alice"), ("password", "pw")])
      { db := emptyDB, sess := [], flashes := [] }).sess :=
    ReachableSess.step (Req.postAddUser [("username", "alice"), ("password", "pw")])
      emptyDB [] ReachableSess.start
  have h := session_key_mismatch _ hr Req.getLogout
    { db := emptyDB, sess := [], flashes := [] } emptyDB []
    [("name", "Bike"), ("price", "5")] 0
  exact ⟨h.2.1, h.2.2.1⟩

theorem find?_eq_some_of_unique {α : Type} (p : α → Bool) (l : List α) (a : α)
    (ha : a ∈ l) (hpa : p a = true) (huniq : ∀ b ∈ l, p b = true → b = a) :
    l.find? p = some a := by
  induction l with
  | nil => exact absurd ha (List.not_mem_nil a)
  | cons x t ih =>
    by_cases hx : p x = true
    · have hxa : x = a := huniq x (List.mem_cons_self x t) hx
      subst hxa
      simp [List.find?_cons, hx]
    · have hx2 : p x = false := Bool.eq_false_iff.mpr hx
      have hxa : ¬(x = a) := fun e => hx (e ▸ hpa)
      have hat : a ∈ t := by
        rcases List.mem_cons.mp ha with e | h2
        · exact absurd e.symm hxa
        · exact h2
      simp only [List.find?_cons, hx2]
      exact ih hat (fun b hb hpb => huniq b (List.mem_cons_of_mem x hb) hpb)

/-- Claim C6: `GET /thing/{id}` with an id matching no thing row yields
the structured not-found response; with a matching row (whose owner
exists, per the foreign-key invariant, and with primary keys unique) it
renders the detail page with the thing's price and its owner's name; in
both cases the state is returned unchanged. -/
theorem show_one_thing_spec (ctx : Ctx) (id : Nat) :
    ((show_one_thing ctx id).1 = ctx) ∧
    ((∀ t ∈ ctx.db.things, t.id ≠ id) →
      show_one_thing ctx id = (ctx, Resp.notFound)) ∧
    (∀ t u, t ∈ ctx.db.things → t.id = id →
      (ctx.db.things.map Thing.id).Nodup →
      u ∈ ctx.db.users → u.id = t.user_id →
      (ctx.db.users.map User.id).Nodup →
      show_one_thing ctx id = (ctx, Resp.renderThing t.id t.name t.price t.user_id u.username)) := by
  refine ⟨show_one_thing_fst ctx id, ?_, ?_⟩
  · intro hall
    have hfind : ctx.db.things.find? (fun t => t.id == id) = none := by
      rw [List.find?_eq_none]
      intro t ht
      simpa using hall t ht
    simp [show_one_thing, hfind, not_found_error]
  · intro t u ht hid hnodupT hu huid hnodupU
    have hfindT : ctx.db.things.find? (fun t2 => t2.id == id) = some t := by
      apply find?_eq_some_of_unique _ _ _ ht (by simpa using hid)
      intro b hb hpb
      have hbid : b.id = t.id := by
        have hb2 : b.id = id := by simpa using hpb
        rw [hb2, hid]
      exact List.inj_on_of_nodup_map hnodupT hb ht hbid
    have hfindU : ctx.db.users.find? (fun u2 => u2.id == t.user_id) = some u := by
      apply find?_eq_some_of_unique _ _ _ hu (by simpa using huid)
      intro b hb hpb
      have hbid : b.id = u.id := by
        have hb2 : b.id = t.user_id := by simpa using hpb
        rw [hb2, huid]
      exact List.inj_on_of_nodup_map hnodupU hb hu hbid
    simp [show_one_thing, hfindT, hfindU]

/-- Witness for C6: id 2 matches nothing and 404s; id 1 renders the
detail with price and owner alice; the state is untouched. -/
theorem show_one_thing_spec_wit :
    show_one_thing c6Ctx 2 = (c6Ctx, Resp.notFound) ∧
    show_one_thing c6Ctx 1 = (c6Ctx, Resp.renderThing 1 "Bike" (some "50") 5 "alice") := by
  constructor
  · exact (show_one_thing_spec c6Ctx 2).2.1 (by decide)
  · exact (show_one_thing_spec c6Ctx 1).2.2
      { id := 1, name := "Bike", price := some "50", user_id := 5 }
      { id := 5, username := "alice", password := generate_password_hash "pw" }
      (by decide) rfl (by decide) (by decide) rfl (by decide)

/-- Counterexample to C7 as stated: team t1's row is present and both
`image_data` and `image_mime` are non-NULL (the blob is merely empty),
so the claim requires the stored bytes to be returned; the handler's
Python truthiness check (`not result.rows[0][0]`) instead treats the
empty blob as falsy and responds 404. -/
theorem team_image_emptyblob_cx :
    c7Ctx.db.teams.find? (fun t => t.code == "t1") =
      some { code := "t1", name := "Tigers", image_data := some [],
             image_mime := some "image/png" } ∧
    (team_image c7Ctx "t1").2 = Resp.notFound ∧
    (team_image c7Ctx "t1").2 ≠ Resp.imageResponse [] "image/png" := by
  refine ⟨by decide, by decide, by decide⟩

/-- Claim C7 (amended): `GET /team-image/{code}` responds 404 exactly
when the team row is absent, or its `image_data` is NULL **or empty**,
or its `image_mime` is NULL **or empty** (Python truthiness, not just a
null check); otherwise the response carries the stored bytes under the
stored MIME type.  No state is mutated. -/
theorem team_image_amended (ctx : Ctx) (code : String) :
    ((team_image ctx code).1 = ctx) ∧
    (ctx.db.teams.find? (fun t => t.code == code) = none →
      (team_image ctx code).2 = Resp.notFound) ∧
    (∀ t, ctx.db.teams.find? (fun t2 => t2.code == code) = some t →
      (t.image_data.getD [] = [] ∨ t.image_mime.getD "" = "") →
      (team_image ctx code).2 = Resp.notFound) ∧
    (∀ t d m, ctx.db.teams.find? (fun t2 => t2.code == code) = some t →
      t.image_data = some d → d ≠ [] → t.image_mime = some m → m ≠ "" →
      (team_image ctx code).2 = Resp.imageResponse d m) := by
  refine ⟨team_image_fst ctx code, ?_, ?_, ?_⟩
  · intro h
    simp [team_image, h]
  · intro t hf hcond
    rcases hd : t.image_data with _ | d
    · simp [team_image, hf, hd]
    · rcases hm : t.image_mime with _ | m
      · simp [team_image, hf, hd, hm]
      · have hc : d = [] ∨ m = "" := by
          rcases hcond with h1 | h2
          · left
            rw [hd] at h1
            simpa using h1
          · right
            rw [hm] at h2
            simpa using h2
        simp [team_image, hf, hd, hm, hc]
  · intro t d m hf hd hne hm hme
    simp [team_image, hf, hd, hm, hne, hme]

/-- Witness for the amended C7: t1 (empty blob) 404s, t2 returns its
bytes and MIME type. -/
theorem team_image_amended_wit :
    (team_image c7Ctx "t1").2 = Resp.notFound ∧
    (team_image c7Ctx "t2").2 = Resp.imageResponse [1, 2] "image/png" := by
  constructor
  · exact (team_image_amended c7Ctx "t1").2.2.1
      { code := "t1", name := "Tigers", image_data := some [], image_mime := some "image/png" }
      (by decide) (by decide)
  · exact (team_image_amended c7Ctx "t2").2.2.2
      { code := "t2", name := "Lions", image_data := some [1, 2], image_mime := some "image/png" }
      [1, 2] "image/png" (by decide) rfl (by decide) rfl (by decide)

/-- Claim C8: in the team list the home page passes to the renderer,
any team with a strictly greater player count appears strictly before
any team with a smaller one; each team's row carries its code, name and
player count (zero-player teams included, via the left join). -/
theorem team_list_sorted_desc (ctx : Ctx) (A B : Team)
    (hA : A ∈ ctx.db.teams) (hB : B ∈ ctx.db.teams)
    (hgt : playerCount ctx.db B.code < playerCount ctx.db A.code) :
    (index ctx).2 = Resp.renderTeams (indexRows ctx.db) ∧
    ∃ (i j : Fin (indexRows ctx.db).length),
      i < j ∧ (indexRows ctx.db).get i = teamRow ctx.db A ∧
      (indexRows ctx.db).get j = teamRow ctx.db B := by
  refine ⟨rfl, ?_⟩
  have hsor : List.Sorted countDescRel (indexRows ctx.db) :=
    List.sorted_insertionSort countDescRel (ctx.db.teams.map (teamRow ctx.db))
  have hAmem : teamRow ctx.db A ∈ indexRows ctx.db :=
    (List.mem_insertionSort countDescRel).mpr (List.mem_map_of_mem (teamRow ctx.db) hA)
  have hBmem : teamRow ctx.db B ∈ indexRows ctx.db :=
    (List.mem_insertionSort countDescRel).mpr (List.mem_map_of_mem (teamRow ctx.db) hB)
  obtain ⟨i, hi⟩ := List.mem_iff_get.mp hAmem
  obtain ⟨j, hj⟩ := List.mem_iff_get.mp hBmem
  refine ⟨i, j, ?_, hi, hj⟩
  rcases lt_trichotomy i j with hlt | heq | hgt2
  · exact hlt
  · exfalso
    rw [heq] at hi
    have hrows : teamRow ctx.db A = teamRow ctx.db B := hi.symm.trans hj
    have hcounts : playerCount ctx.db A.code = playerCount ctx.db B.code :=
      congrArg (fun r => r.2.2) hrows
    exact absurd hgt (hcounts ▸ lt_irrefl _)
  · exfalso
    have hrel := List.pairwise_iff_get.mp hsor j i hgt2
    rw [hi, hj] at hrel
    exact absurd hgt (not_lt.mpr hrel)

/-- Witness for C8: team a (two players) appears before team b (one
player) even though b is listed first in the table. -/
theorem team_list_sorted_desc_wit :
    (index c8Ctx).2 = Resp.renderTeams (indexRows c8Ctx.db) ∧
    ∃ (i j : Fin (indexRows c8Ctx.db).length),
      i < j ∧ (indexRows c8Ctx.db).get i =
        teamRow c8Ctx.db { code := "a", name := "Ants", image_data := none, image_mime := none } ∧
      (indexRows c8Ctx.db).get j =
        teamRow c8Ctx.db { code := "b", name := "Bees", image_data := none, image_mime := none } :=
  team_list_sorted_desc c8Ctx
    { code := "a", name := "Ants", image_data := none, image_mime := none }
    { code := "b", name := "Bees", image_data := none, image_mime := none }
    (by decide) (by decide) (by decide)
